import Mathlib

set_option maxRecDepth 100000

/-!
Shallow embedding of the multithreaded HTTP file server in `Lab2/server.py`
(rate limiter, request counters, path resolution, MIME lookup, directory
listing renderer and the per-connection request handler), together with
theorems settling the specification claims about it.

Conventions of the embedding:
* machine strings are Lean `String`s; byte sequences are `List Nat`
  (each element a byte value);
* wall-clock timestamps (`time.time()`) are rationals `ℚ`;
* the filesystem (`os.path.realpath`, `os.path.isdir`, `os.path.isfile`,
  `os.listdir`, file contents) is an explicit structure `FS` passed to the
  handler;
* the shared mutable globals (`request_counts`, `total_requests`,
  `rate_limit_data`) form an explicit `ServerState` threaded through the
  handler.  Every access to them in the Python code happens under a lock,
  so each such access is modelled as one atomic step.
-/

/-! ## Python string primitives used by the server -/

/-- Characters that Python `str.split()` (no argument) treats as separators,
restricted to the ASCII range relevant here: space, tab, newline, carriage
return, vertical tab, form feed. -/
def pyIsSpace (c : Char) : Bool :=
  c == ' ' || c == '\t' || c == '\n' || c == '\r' || c == '\x0b' || c == '\x0c'

/-- Split a character list at every character satisfying `p`, keeping empty
groups (the behaviour of Python `str.split(sep)` with an explicit separator).
The result list is never empty. -/
def splitPAux (p : Char → Bool) : List Char → List (List Char)
  | [] => [[]]
  | x :: xs =>
    match splitPAux p xs with
    | [] => [[]]
    | g :: gs => if p x then [] :: g :: gs else (x :: g) :: gs

/-- Python `s.split(c)` for a one-character separator `c`: splits on every
occurrence, keeping empty pieces. -/
def pySplitChar (c : Char) (s : String) : List String :=
  (splitPAux (fun x => x == c) s.data).map String.mk

/-- Python `s.split()` (no argument): split on runs of whitespace, discarding
empty pieces. -/
def pySplitWs (s : String) : List String :=
  (((splitPAux pyIsSpace s.data).filter (· ≠ [])).map String.mk)

/-- Python `s.lstrip(c)` for a single character. -/
def pyLstrip (c : Char) (s : String) : String :=
  String.mk (s.data.dropWhile (· == c))

/-- Python `s.rstrip(c)` for a single character. -/
def pyRstrip (c : Char) (s : String) : String :=
  String.mk ((s.data.reverse.dropWhile (· == c)).reverse)

/-- Boolean string-prefix test, Python `s.startswith(pre)`. -/
def pyStartswith (s pre : String) : Bool :=
  pre.data.isPrefixOf s.data

/-- Boolean string-suffix test, Python `s.endswith(suf)`. -/
def pyEndswith (s suf : String) : Bool :=
  suf.data.isSuffixOf s.data

/-- Python `os.path.join(a, b)` for the two-argument POSIX case. -/
def pyJoin (a b : String) : String :=
  if pyStartswith b "/" then b
  else if a = "" ∨ pyEndswith a "/" then a ++ b
  else a ++ "/" ++ b

/-- Model of `os.path.relpath(p, b)` for the cases arising in the server:
`"."` when the paths are equal, the suffix after `b ++ "/"` when `p` lies
under `b`, and `p` unchanged otherwise (the `..`-inserting general case of
`os.path.relpath` is never decisive for any claim). -/
def pyRelpath (p b : String) : String :=
  if p = b then "."
  else if pyStartswith p (b ++ "/") then String.mk (p.data.drop (b ++ "/").data.length)
  else p

/-- ASCII case mapping of one character, the fragment of Python `str.lower`
exercised by file extensions. -/
def pyLowerChar (c : Char) : Char :=
  if 65 ≤ c.toNat ∧ c.toNat ≤ 90 then Char.ofNat (c.toNat + 32) else c

/-- Python `s.lower()` restricted to ASCII case mapping. -/
def pyLower (s : String) : String :=
  String.mk (s.data.map pyLowerChar)

/-- The extension component returned by `os.path.splitext(path)[1]`: the part
of the basename from its last dot on, unless every character before that dot
is itself a dot (so a leading-dot name such as `.bashrc` has no extension). -/
def splitextExt (path : String) : String :=
  let base := ((pySplitChar '/' path).getLastD "").data
  match ((List.range base.length).filter (fun i => base.getD i ' ' == '.')).getLast? with
  | none => ""
  | some i => if (base.take i).any (fun c => c != '.') then String.mk (base.drop i) else ""

/-! ## UTF-8 encoding (Python `str.encode()`) -/

/-- UTF-8 encoding of one unicode scalar value as its list of bytes. -/
def utf8Bytes (c : Char) : List Nat :=
  let n := c.toNat
  if n < 128 then [n]
  else if n < 2048 then [192 + n / 64, 128 + n % 64]
  else if n < 65536 then [224 + n / 4096, 128 + (n / 64) % 64, 128 + n % 64]
  else [240 + n / 262144, 128 + (n / 4096) % 64, 128 + (n / 64) % 64, 128 + n % 64]

/-- Python `s.encode()`: the UTF-8 bytes of a string. -/
def strBytes (s : String) : List Nat :=
  (s.data.map utf8Bytes).flatten

/-- Universal-newline translation performed by reading a file in Python text
mode (`open(path, 'r')`): `\r\n` and lone `\r` both become `\n`.  The model
assumes the on-disk bytes decode under the text-mode codec, which holds for
the ASCII counterexamples used below. -/
def univNewlines : List Nat → List Nat
  | [] => []
  | 13 :: 10 :: rest => 10 :: univNewlines rest
  | 13 :: rest => 10 :: univNewlines rest
  | b :: rest => b :: univNewlines rest

/-! ## MIME table (`MIME_TYPES`, `get_content_type`) -/

/-- `MIME_TYPES`: the fixed extension → content-type table. -/
def MIME_TYPES : List (String × String) :=
  [(".html", "text/html"), (".png", "image/png"), (".pdf", "application/pdf")]

/-- `MIME_TYPES.get(ext)`. -/
def mimeGet (ext : String) : Option String :=
  MIME_TYPES.lookup ext

/-- `get_content_type`: extension of the path, lowercased, looked up in
`MIME_TYPES` (`None` when absent). -/
def get_content_type (file_path : String) : Option String :=
  mimeGet (pyLower (splitextExt file_path))

/-! ## Shared mutable state of the server process -/

/-- The three lock-protected globals of `server.py`: `request_counts`
(a `defaultdict(int)` keyed by path, so absent keys read 0), the
`total_requests` integer and `rate_limit_data` (a `defaultdict(list)` of
timestamps keyed by client IP). -/
structure ServerState where
  request_counts : String → Nat
  total_requests : Nat
  rate_limit_data : String → List ℚ

/-- `increment_request_count`: one atomic `request_counts[file_path] += 1`
(the Python function performs it under `request_counts_lock`). -/
def increment_request_count (st : ServerState) (file_path : String) : ServerState :=
  { st with request_counts :=
      fun p => if p = file_path then st.request_counts p + 1 else st.request_counts p }

/-- `get_request_count`: one atomic read of `request_counts[file_path]`. -/
def get_request_count (st : ServerState) (file_path : String) : Nat :=
  st.request_counts file_path

/-- `increment_total_requests`: one atomic `total_requests += 1`. -/
def increment_total_requests (st : ServerState) : ServerState :=
  { st with total_requests := st.total_requests + 1 }

/-! ## Rate limiter -/

def RATE_LIMIT : Nat := 5

def RATE_WINDOW : ℚ := 1

/-- `is_rate_limited`, as one atomic step on the timestamp list stored for a
client IP (the Python function runs under `rate_limit_lock`): prune stamps
older than the window, reject without recording when already at the limit,
otherwise record `current_time` and admit.  Returns
`(limited?, new stored list)`. -/
def is_rate_limited (current_time : ℚ) (stamps : List ℚ) : Bool × List ℚ :=
  let kept := stamps.filter (fun ts => current_time - ts < RATE_WINDOW)
  if RATE_LIMIT ≤ kept.length then (true, kept)
  else (false, kept ++ [current_time])

/-! ## Filesystem interface -/

/-- The filesystem operations the handler consults, as an explicit
environment: `os.path.realpath` (canonicalization; resolves `..` and
symlinks, defined also on paths that do not exist), `os.path.isdir`,
`os.path.isfile`, `os.listdir` and the raw bytes stored in a file. -/
structure FS where
  realpath : String → String
  isDir : String → Bool
  isFile : String → Bool
  listdir : String → List String
  content : String → List Nat

/-! ## Directory listing renderer (`generate_directory_listing`) -/

/-- Insert into a lexicographically sorted list of strings. -/
def insortStr (x : String) : List String → List String
  | [] => [x]
  | y :: ys => if x ≤ y then x :: y :: ys else y :: insortStr x ys

/-- Python `sorted` on strings (insertion sort; ascending, stable). -/
def pySorted : List String → List String
  | [] => []
  | x :: xs => insortStr x (pySorted xs)

/-- The fixed part of the listing page before the first interpolation. -/
def dirListingPart1 : String :=
  "<!DOCTYPE html>\n<html>\n<head>\n    <title>Directory listing for "

/-- The style block between the title and the heading interpolations. -/
def dirListingPart2 : String :=
  "</title>\n    <style>\n        body \x7b font-family: Arial, sans-serif; margin: 40px; background: #f5f5f5; \x7d\n        h1 \x7b color: #333; \x7d\n        .stats \x7b background: #e3f2fd; padding: 15px; border-radius: 5px; margin: 20px 0; \x7d\n        ul \x7b list-style: none; padding: 0; \x7d\n        li \x7b padding: 12px; margin: 8px 0; background: white; border-left: 4px solid #2196F3; \n              border-radius: 4px; display: flex; justify-content: space-between; align-items: center; \x7d\n        li:hover \x7b background: #f0f0f0; \x7d\n        a \x7b text-decoration: none; color: #0066cc; font-weight: bold; \x7d\n        a:hover \x7b text-decoration: underline; \x7d\n        .dir \x7b border-left-color: #FF9800; \x7d\n        .count \x7b \n            background: #4CAF50; \n            color: white; \n            padding: 4px 12px; \n            border-radius: 12px; \n            font-size: 0.9em;\n            font-weight: bold;\n        \x7d\n    </style>\n</head>\n<body>\n    <h1>📁 Directory listing for "

/-- Between the heading and the total-requests interpolation. -/
def dirListingPart3 : String :=
  "</h1>\n    <div class=\"stats\">\n        <strong>Total server requests:</strong> "

/-- After the total-requests interpolation, up to the open `<ul>`. -/
def dirListingPart4 : String :=
  "\n    </div>\n    <hr>\n    <ul>\n"

/-- The fixed tail of the listing page. -/
def dirListingTail : String :=
  "    </ul>\n    <hr>\n    <p style=\"color: #666; font-size: 0.9em;\">\n        Request counters are tracked server-wide and persist during server runtime\n    </p>\n</body>\n</html>"

/-- One `<li>` entry of the listing, for entry `item` of `directory_path`. -/
def dirListingItem (fs : FS) (st : ServerState)
    (directory_path url_path base_directory item : String) : String :=
  let item_path := pyJoin directory_path item
  let rel_path := pyRelpath item_path base_directory
  let count := get_request_count st rel_path
  if fs.isDir item_path then
    let link := pyRstrip '/' url_path ++ "/" ++ item ++ "/"
    "        <li class=\"dir\"><a href=\"" ++ link ++ "\"> " ++ item ++
      "/</a><span class=\"count\">" ++ toString count ++ " views</span></li>\n"
  else
    let link := pyRstrip '/' url_path ++ "/" ++ item
    "        <li><a href=\"" ++ link ++ "\"> " ++ item ++
      "</a><span class=\"count\">" ++ toString count ++ " requests</span></li>\n"

/-- `generate_directory_listing(directory_path, url_path, base_directory)`:
the HTML page listing a directory, with the global `total_requests` and the
per-entry request counters read from the shared state. -/
def generate_directory_listing (fs : FS) (st : ServerState)
    (directory_path url_path base_directory : String) : String :=
  let header := dirListingPart1 ++ url_path ++ dirListingPart2 ++ url_path ++
    dirListingPart3 ++ toString st.total_requests ++ dirListingPart4
  let parentLine :=
    if url_path ≠ "/" then
      let joined := String.intercalate "/" ((pySplitChar '/' (pyRstrip '/' url_path)).dropLast)
      let parent := if joined = "" then "/" else joined
      "        <li><a href=\"" ++ parent ++ "\"> [Parent Directory]</a></li>\n"
    else ""
  let items := pySorted (fs.listdir directory_path)
  let entries := String.join
    (items.map (dirListingItem fs st directory_path url_path base_directory))
  header ++ parentLine ++ entries ++ dirListingTail

/-! ## HTTP responses -/

/-- A response as assembled by the handler: status line pieces, the header
lines appended after it, and the body bytes sent after the blank line. -/
structure Response where
  status : Nat
  reason : String
  headers : List (String × String)
  body : List Nat
deriving DecidableEq

/-- The value of header `k` in a response, if present. -/
def Response.header (r : Response) (k : String) : Option String :=
  r.headers.lookup k

/-- Body of the 429 page. -/
def body429 : String :=
  "<html><body><h1>429 Too Many Requests</h1><p>Rate limit exceeded. Please slow down.</p><p>Limit: 5 requests per second</p></body></html>"

/-- Body of the 404 page for a requested path. -/
def body404 (url_path : String) : String :=
  "<html><body><h1>404 Not Found</h1><p>The file \x27" ++ url_path ++
    "\x27 was not found on this server.</p></body></html>"

/-- Body of the 415 page. -/
def body415 : String :=
  "<html><body><h1>415 Unsupported Media Type</h1></body></html>"

/-! ## The per-connection handler (`handle_request`) -/

/-- Lines 268-347 of `server.py`: the already-stripped URL path is joined
with the base directory, both sides are canonicalized, the sandbox check is
enforced, and the request is dispatched to the directory-listing, 404, 415
or file-serving branch. -/
def serve_path (fs : FS) (base_directory : String) (st : ServerState)
    (url_path : String) : ServerState × Option Response :=
  let file_path := pyJoin base_directory url_path
  let real_base := fs.realpath base_directory
  let real_file := fs.realpath file_path
  if ¬ pyStartswith real_file real_base then
    (st, some { status := 403, reason := "Forbidden", headers := [], body := [] })
  else
    let rel_path := pyRelpath real_file real_base
    if fs.isDir file_path then
      let st := increment_request_count st rel_path
      let html := generate_directory_listing fs st file_path ("/" ++ url_path)
        base_directory
      (st, some { status := 200, reason := "OK",
                  headers := [("Content-Type", "text/html"),
                              ("Content-Length", toString html.length)],
                  body := strBytes html })
    else if ¬ fs.isFile file_path then
      (st, some { status := 404, reason := "Not Found",
                  headers := [("Content-Type", "text/html")],
                  body := strBytes (body404 url_path) })
    else
      let st := increment_request_count st rel_path
      match get_content_type file_path with
      | none =>
        (st, some { status := 415, reason := "Unsupported Media Type",
                    headers := [("Content-Type", "text/html")],
                    body := strBytes body415 })
      | some content_type =>
        let file_content :=
          if content_type = "image/png" ∨ content_type = "application/pdf" then
            fs.content file_path
          else univNewlines (fs.content file_path)
        (st, some { status := 200, reason := "OK",
                    headers := [("Content-Type", content_type),
                                ("Content-Length", toString file_content.length)],
                    body := file_content })

/-- Lines 229-266 of `server.py`: parse the request line, reject non-GET
methods, serve the root listing for `/`, otherwise strip the leading slashes
and continue with `serve_path`. -/
def route_request (fs : FS) (base_directory : String) (st : ServerState)
    (raw_request : String) : ServerState × Option Response :=
  let request_line := (pySplitChar '\n' raw_request).headD ""
  let parts := pySplitWs request_line
  if parts.length < 2 then (st, none)
  else
    let method := parts.headD ""
    let url_path := (parts.drop 1).headD ""
    if method ≠ "GET" then
      (st, some { status := 405, reason := "Method Not Allowed",
                  headers := [], body := [] })
    else if url_path = "/" then
      let html := generate_directory_listing fs st base_directory "/" base_directory
      (st, some { status := 200, reason := "OK",
                  headers := [("Content-Type", "text/html; charset=utf-8"),
                              ("Content-Length", toString (strBytes html).length)],
                  body := strBytes html })
    else serve_path fs base_directory st (pyLstrip '/' url_path)

/-- `handle_request`, from the rate-limit gate to the response (the socket
receive is modelled by passing the decoded request text `raw_request`; the
artificial `time.sleep` and the exception/500 path are outside the model).
Returns the state after the call together with the response sent, `none`
when the connection is closed without sending anything. -/
def handle_request (fs : FS) (base_directory : String) (now : ℚ)
    (client_ip : String) (raw_request : String) (st : ServerState) :
    ServerState × Option Response :=
  let rl := is_rate_limited now (st.rate_limit_data client_ip)
  let st := { st with rate_limit_data :=
      fun ip => if ip = client_ip then rl.2 else st.rate_limit_data ip }
  if rl.1 then
    (st, some { status := 429, reason := "Too Many Requests",
                headers := [("Content-Type", "text/html"), ("Retry-After", "1")],
                body := strBytes body429 })
  else
    route_request fs base_directory (increment_total_requests st) raw_request

/-! ## Auxiliary lemmas -/

lemma charOfNat_toNat (n : Nat) (h : n < 55296) : (Char.ofNat n).toNat = n := by
  unfold Char.ofNat
  rw [dif_pos (Or.inl h)]
  simp [Char.ofNatAux, Char.toNat, UInt32.toNat, BitVec.ofNatLt, BitVec.toNat]

lemma pyLowerChar_idem (c : Char) : pyLowerChar (pyLowerChar c) = pyLowerChar c := by
  unfold pyLowerChar
  by_cases h : 65 ≤ c.toNat ∧ c.toNat ≤ 90
  · rw [if_pos h]
    have ht : (Char.ofNat (c.toNat + 32)).toNat = c.toNat + 32 :=
      charOfNat_toNat _ (by omega)
    rw [if_neg]
    rw [ht]
    omega
  · rw [if_neg h, if_neg h]

lemma pyLower_idem (s : String) : pyLower (pyLower s) = pyLower s := by
  unfold pyLower
  simp only [List.map_map]
  congr 1
  apply List.map_congr_left
  intro c _
  exact pyLowerChar_idem c

lemma univNewlines_cons_ne (b : Nat) (rest : List Nat) (hb : b ≠ 13) :
    univNewlines (b :: rest) = b :: univNewlines rest := by
  rw [univNewlines.eq_def]
  split <;> simp_all [List.cons.injEq]

lemma univNewlines_of_no_cr : ∀ (l : List Nat), 13 ∉ l → univNewlines l = l
  | [], _ => rfl
  | b :: rest, h => by
    have hb : b ≠ 13 := fun e => h (e ▸ List.mem_cons_self b rest)
    have hr : 13 ∉ rest := fun e => h (List.mem_cons_of_mem b e)
    rw [univNewlines_cons_ne b rest hb, univNewlines_of_no_cr rest hr]

/-! ## Rate limiter: sliding-window admission bound -/

/-- The timestamps admitted by a sequence of `is_rate_limited` calls for one
client IP, one call per element of the (chronological) time list, starting
from stored timestamp list `st`. -/
def runRL : List ℚ → List ℚ → List ℚ
  | _, [] => []
  | st, t :: ts =>
    let r := is_rate_limited t st
    if r.1 then runRL r.2 ts else t :: runRL r.2 ts

lemma runRL_cons (st : List ℚ) (t : ℚ) (ts : List ℚ) :
    runRL st (t :: ts) =
      if RATE_LIMIT ≤ (st.filter (fun s => decide (t - s < RATE_WINDOW))).length then
        runRL (st.filter (fun s => decide (t - s < RATE_WINDOW))) ts
      else t :: runRL (st.filter (fun s => decide (t - s < RATE_WINDOW)) ++ [t]) ts := by
  by_cases h : RATE_LIMIT ≤ (st.filter (fun s => decide (t - s < RATE_WINDOW))).length <;>
    simp [runRL, is_rate_limited, h]

lemma filter_window_mono (A : List ℚ) {u t : ℚ} (hut : u ≤ t) :
    A.filter (fun s => decide (t - s < RATE_WINDOW)) =
      (A.filter (fun s => decide (u - s < RATE_WINDOW))).filter
        (fun s => decide (t - s < RATE_WINDOW)) := by
  rw [List.filter_filter]
  apply List.filter_congr
  intro s _
  by_cases hts : t - s < RATE_WINDOW
  · have hus : u - s < RATE_WINDOW := by linarith
    simp [hts, hus]
  · simp [hts]

/-- Invariant step for the sliding-window bound: whenever the run emits an
admitted timestamp `t`, fewer than `RATE_LIMIT` previously admitted
timestamps lie within the window ending at `t`. -/
lemma runRL_aux (ts : List ℚ) : ∀ (st A : List ℚ) (u : ℚ),
    List.Chain (· ≤ ·) u ts →
    (A.filter (fun s => decide (u - s < RATE_WINDOW))).Sublist st →
    ∀ X t Y, runRL st ts = X ++ t :: Y →
      ((A ++ X).filter (fun s => decide (t - s < RATE_WINDOW))).length < RATE_LIMIT := by
  induction ts with
  | nil =>
    intro st A u _ _ X t Y heq
    simp [runRL] at heq
  | cons t' ts' ih =>
    intro st A u hchain hsub X t Y heq
    rw [List.chain_cons] at hchain
    obtain ⟨hut', hchain'⟩ := hchain
    rw [runRL_cons] at heq
    have hsubK : (A.filter (fun s => decide (t' - s < RATE_WINDOW))).Sublist
        (st.filter (fun s => decide (t' - s < RATE_WINDOW))) := by
      rw [filter_window_mono A hut']
      exact hsub.filter _
    by_cases hlim : RATE_LIMIT ≤ (st.filter (fun s => decide (t' - s < RATE_WINDOW))).length
    · rw [if_pos hlim] at heq
      exact ih _ A t' hchain' hsubK X t Y heq
    · rw [if_neg hlim] at heq
      cases X with
      | nil =>
        rw [List.nil_append, List.cons.injEq] at heq
        obtain ⟨h1, _⟩ := heq
        subst h1
        have hle := hsubK.length_le
        simp only [List.append_nil]
        omega
      | cons x X2 =>
        rw [List.cons_append, List.cons.injEq] at heq
        obtain ⟨hx, heq2⟩ := heq
        subst hx
        have hsub2 : ((A ++ [t']).filter (fun s => decide (t' - s < RATE_WINDOW))).Sublist
            (st.filter (fun s => decide (t' - s < RATE_WINDOW)) ++ [t']) := by
          rw [List.filter_append]
          exact List.Sublist.append hsubK (List.filter_sublist _)
        have hres := ih _ (A ++ [t']) t' hchain' hsub2 X2 t Y heq2
        have hassoc : A ++ t' :: X2 = (A ++ [t']) ++ X2 := by simp
        rw [hassoc]
        exact hres

/-- From the per-admission bound to the bound over an arbitrary window
`[a, a + RATE_WINDOW)`. -/
lemma runRL_window : ∀ (B : List ℚ),
    (∀ X t Y, B = X ++ t :: Y →
      (X.filter (fun s => decide (t - s < RATE_WINDOW))).length < RATE_LIMIT) →
    ∀ a : ℚ,
      ((B.filter (fun s => decide (a ≤ s) && decide (s < a + RATE_WINDOW))).length ≤
        RATE_LIMIT) := by
  intro B
  induction B using List.reverseRecOn with
  | nil => intro _ a; simp
  | append_singleton B2 b ih =>
    intro hkey a
    have hkey2 : ∀ X t Y, B2 = X ++ t :: Y →
        (X.filter (fun s => decide (t - s < RATE_WINDOW))).length < RATE_LIMIT := by
      intro X t Y h
      exact hkey X t (Y ++ [b]) (by rw [h]; simp)
    rw [List.filter_append]
    by_cases hb : (decide (a ≤ b) && decide (b < a + RATE_WINDOW)) = true
    · have hmono : (B2.filter (fun s => decide (a ≤ s) && decide (s < a + RATE_WINDOW))).Sublist
          (B2.filter (fun s => decide (b - s < RATE_WINDOW))) := by
        apply List.monotone_filter_right
        intro s hs
        simp only [Bool.and_eq_true, decide_eq_true_eq] at hs hb ⊢
        linarith [hs.1, hs.2, hb.1, hb.2]
      have hlt : (B2.filter (fun s => decide (b - s < RATE_WINDOW))).length < RATE_LIMIT :=
        hkey B2 b [] (by simp)
      have h1 := hmono.length_le
      simp only [List.filter_cons, List.filter_nil, hb, if_pos, List.length_append,
        List.length_cons, List.length_nil]
      omega
    · simp only [List.filter_cons, List.filter_nil, hb]
      simp only [Bool.false_eq_true, if_false, List.append_nil]
      exact ih hkey2 a

/-- At most `RATE_LIMIT` of the calls in a chronological sequence are
admitted with timestamps inside any window `[a, a + RATE_WINDOW)`. -/
lemma rate_window_bound (u : ℚ) (ts : List ℚ) (hchain : List.Chain (· ≤ ·) u ts) (a : ℚ) :
    ((runRL [] ts).filter (fun s => decide (a ≤ s) && decide (s < a + RATE_WINDOW))).length ≤
      RATE_LIMIT := by
  apply runRL_window
  intro X t Y heq
  have h := runRL_aux ts [] [] u hchain (by simp) X t Y heq
  simpa using h

/-! ## Handler-level bookkeeping lemmas -/

lemma serve_total (fs : FS) (base : String) (st : ServerState) (url : String) :
    (serve_path fs base st url).1.total_requests = st.total_requests := by
  simp only [serve_path]
  repeat' split
  all_goals rfl

lemma route_total (fs : FS) (base : String) (st : ServerState) (raw : String) :
    (route_request fs base st raw).1.total_requests = st.total_requests := by
  simp only [route_request]
  repeat' split
  all_goals first
    | rfl
    | apply serve_total

lemma handle_total (fs : FS) (base : String) (now : ℚ) (ip req : String) (st : ServerState) :
    (handle_request fs base now ip req st).1.total_requests =
      if (is_rate_limited now (st.rate_limit_data ip)).1 then st.total_requests
      else st.total_requests + 1 := by
  by_cases h : (is_rate_limited now (st.rate_limit_data ip)).1
  · simp [handle_request, h]
  · simp only [Bool.not_eq_true] at h
    simp only [handle_request, h, Bool.false_eq_true, if_false]
    rw [route_total]
    rfl

/-! ## Serialized concurrent counter increments -/

/-- Serialization of a set of concurrent `increment_request_count` calls:
each call holds `request_counts_lock` for its whole read-modify-write, so a
concurrent execution is exactly some interleaving order `ps` of the
individual atomic increments, applied in sequence. -/
def applyIncrements (ps : List String) (st : ServerState) : ServerState :=
  ps.foldl increment_request_count st

lemma applyIncrements_counts (ps : List String) (st : ServerState) (P : String) :
    (applyIncrements ps st).request_counts P = st.request_counts P + ps.count P := by
  induction ps generalizing st with
  | nil => simp [applyIncrements]
  | cons p ps ih =>
    have hstep : applyIncrements (p :: ps) st = applyIncrements ps (increment_request_count st p) := by
      simp [applyIncrements]
    rw [hstep, ih]
    by_cases h : P = p
    · subst h
      simp [increment_request_count, List.count_cons]
      omega
    · have h2 : ¬ (p == P) = true := by simp [beq_iff_eq]; exact fun e => h e.symm
      simp [increment_request_count, h, List.count_cons, h2]

/-! ## Sequentialized sequence of requests -/

/-- A sequence of requests `(time, client IP, raw request)` processed one
after the other, starting from `st`.  Returns the final state and the number
of requests admitted past the rate-limit gate. -/
def runRequests (fs : FS) (base : String) :
    List (ℚ × String × String) → ServerState → ServerState × Nat
  | [], st => (st, 0)
  | c :: rest, st =>
    let admitted := !(is_rate_limited c.1 (st.rate_limit_data c.2.1)).1
    let st2 := (handle_request fs base c.1 c.2.1 c.2.2 st).1
    let r := runRequests fs base rest st2
    (r.1, (if admitted then 1 else 0) + r.2)

lemma runRequests_total (fs : FS) (base : String) :
    ∀ (l : List (ℚ × String × String)) (st : ServerState),
      (runRequests fs base l st).1.total_requests =
        st.total_requests + (runRequests fs base l st).2 := by
  intro l
  induction l with
  | nil => intro st; simp [runRequests]
  | cons c rest ih =>
    intro st
    simp only [runRequests]
    have h1 := handle_total fs base c.1 c.2.1 c.2.2 st
    by_cases h : (is_rate_limited c.1 (st.rate_limit_data c.2.1)).1
    · simp only [h, if_pos] at h1
      simp [h, ih, h1]
    · simp only [Bool.not_eq_true] at h
      simp only [h, Bool.false_eq_true, if_false] at h1
      simp [h, ih, h1]
      omega

/-! ## Branch-selection lemmas for the handler -/

lemma handle_request_limited (fs : FS) (base : String) (now : ℚ) (ip req : String)
    (st : ServerState) (h : (is_rate_limited now (st.rate_limit_data ip)).1 = true) :
    handle_request fs base now ip req st =
      ({ st with rate_limit_data := fun i =>
          if i = ip then (is_rate_limited now (st.rate_limit_data ip)).2
          else st.rate_limit_data i },
       some { status := 429, reason := "Too Many Requests",
              headers := [("Content-Type", "text/html"), ("Retry-After", "1")],
              body := strBytes body429 }) := by
  simp [handle_request, h]

lemma handle_request_admitted (fs : FS) (base : String) (now : ℚ) (ip req : String)
    (st : ServerState) (h : (is_rate_limited now (st.rate_limit_data ip)).1 = false) :
    handle_request fs base now ip req st =
      route_request fs base
        (increment_total_requests
          { st with rate_limit_data := fun i =>
              if i = ip then (is_rate_limited now (st.rate_limit_data ip)).2
              else st.rate_limit_data i }) req := by
  simp [handle_request, h]

lemma route_request_parsed (fs : FS) (base : String) (st : ServerState) (req : String)
    (method url : String) (rest : List String)
    (hparse : pySplitWs ((pySplitChar '\n' req).headD "") = method :: url :: rest) :
    route_request fs base st req =
      if method ≠ "GET" then
        (st, some { status := 405, reason := "Method Not Allowed", headers := [], body := [] })
      else if url = "/" then
        (st, some { status := 200, reason := "OK",
                    headers := [("Content-Type", "text/html; charset=utf-8"),
                                ("Content-Length",
                                 toString (strBytes (generate_directory_listing fs st base "/" base)).length)],
                    body := strBytes (generate_directory_listing fs st base "/" base) })
      else serve_path fs base st (pyLstrip '/' url) := by
  simp only [route_request, hparse]
  have hlen : ¬ ((method :: url :: rest).length < 2) := by simp
  rw [if_neg hlen]
  simp only [List.headD_cons, List.drop_succ_cons, List.drop_zero]

lemma route_request_get (fs : FS) (base : String) (st : ServerState) (req : String)
    (url : String) (rest : List String)
    (hparse : pySplitWs ((pySplitChar '\n' req).headD "") = "GET" :: url :: rest)
    (hroot : url ≠ "/") :
    route_request fs base st req = serve_path fs base st (pyLstrip '/' url) := by
  rw [route_request_parsed fs base st req "GET" url rest hparse]
  simp [hroot]

lemma route_request_405 (fs : FS) (base : String) (st : ServerState) (req : String)
    (method url : String) (rest : List String)
    (hparse : pySplitWs ((pySplitChar '\n' req).headD "") = method :: url :: rest)
    (hm : method ≠ "GET") :
    route_request fs base st req =
      (st, some { status := 405, reason := "Method Not Allowed", headers := [], body := [] }) := by
  rw [route_request_parsed fs base st req method url rest hparse]
  simp [hm]

lemma serve_path_403 (fs : FS) (base : String) (st : ServerState) (url : String)
    (h : pyStartswith (fs.realpath (pyJoin base url)) (fs.realpath base) = false) :
    serve_path fs base st url =
      (st, some { status := 403, reason := "Forbidden", headers := [], body := [] }) := by
  simp [serve_path, h]

lemma serve_path_404 (fs : FS) (base : String) (st : ServerState) (url : String)
    (h : pyStartswith (fs.realpath (pyJoin base url)) (fs.realpath base) = true)
    (hdir : fs.isDir (pyJoin base url) = false)
    (hfile : fs.isFile (pyJoin base url) = false) :
    serve_path fs base st url =
      (st, some { status := 404, reason := "Not Found",
                  headers := [("Content-Type", "text/html")],
                  body := strBytes (body404 url) }) := by
  simp [serve_path, h, hdir, hfile]

lemma serve_path_415 (fs : FS) (base : String) (st : ServerState) (url : String)
    (h : pyStartswith (fs.realpath (pyJoin base url)) (fs.realpath base) = true)
    (hdir : fs.isDir (pyJoin base url) = false)
    (hfile : fs.isFile (pyJoin base url) = true)
    (hmime : get_content_type (pyJoin base url) = none) :
    serve_path fs base st url =
      (increment_request_count st
         (pyRelpath (fs.realpath (pyJoin base url)) (fs.realpath base)),
       some { status := 415, reason := "Unsupported Media Type",
              headers := [("Content-Type", "text/html")],
              body := strBytes body415 }) := by
  simp [serve_path, h, hdir, hfile, hmime]

lemma serve_path_file (fs : FS) (base : String) (st : ServerState) (url : String)
    (ct : String)
    (h : pyStartswith (fs.realpath (pyJoin base url)) (fs.realpath base) = true)
    (hdir : fs.isDir (pyJoin base url) = false)
    (hfile : fs.isFile (pyJoin base url) = true)
    (hmime : get_content_type (pyJoin base url) = some ct) :
    serve_path fs base st url =
      (increment_request_count st
         (pyRelpath (fs.realpath (pyJoin base url)) (fs.realpath base)),
       some { status := 200, reason := "OK",
              headers := [("Content-Type", ct),
                          ("Content-Length", toString
                            (if ct = "image/png" ∨ ct = "application/pdf" then
                              fs.content (pyJoin base url)
                            else univNewlines (fs.content (pyJoin base url))).length)],
              body := if ct = "image/png" ∨ ct = "application/pdf" then
                        fs.content (pyJoin base url)
                      else univNewlines (fs.content (pyJoin base url)) }) := by
  simp [serve_path, h, hdir, hfile, hmime]

lemma serve_path_status_ne_403 (fs : FS) (base : String) (st : ServerState) (url : String)
    (h : pyStartswith (fs.realpath (pyJoin base url)) (fs.realpath base) = true) :
    (serve_path fs base st url).2.map Response.status ≠ some 403 := by
  simp only [serve_path, h]
  repeat' split
  all_goals simp_all

/-! ## Concrete environments used as witnesses and counterexamples -/

/-- The initial shared state: all counters zero, no recorded timestamps. -/
def stEmpty : ServerState := ⟨fun _ => 0, 0, fun _ => []⟩

/-- A state with five admissions recorded for client `10.0.0.1` within the
last window (all at time 0), some counters at 3 and a total of 7. -/
def stFull : ServerState :=
  ⟨fun _ => 3, 7, fun ip => if ip = "10.0.0.1" then [0, 0, 0, 0, 0] else []⟩

/-- Serving `/b` that contains only the regular file `x.xyz` (an extension
outside the MIME table); canonicalization is the identity (no symlinks, no
`..` segments in the exercised paths). -/
def fsPlain : FS :=
  ⟨id, fun _ => false, fun p => p == "/b/x.xyz", fun _ => [], fun _ => []⟩

/-- Serving `/b` that contains only the empty subdirectory `sub`. -/
def fsSub : FS :=
  ⟨id, fun p => p == "/b" || p == "/b/sub", fun _ => false, fun _ => [], fun _ => []⟩

/-- A filesystem where `/srv/www` and `/srv/www2` are plain sibling
directories: canonicalizing `/srv/www/../www2/secret` yields
`/srv/www2/secret` (outside the base `/srv/www` but sharing it as a string
prefix), and canonicalizing `/srv/www/../../etc/passwd` yields
`/etc/passwd`. -/
def fsSibling : FS :=
  ⟨fun p =>
    if p == "/srv/www/../www2/secret" then "/srv/www2/secret"
    else if p == "/srv/www/../../etc/passwd" then "/etc/passwd"
    else p,
   fun _ => false, fun _ => false, fun _ => [], fun _ => []⟩

/-- Serving `/b` containing the regular file `x.html` whose bytes on disk
are `a\r\nb`. -/
def fsCrlf : FS :=
  ⟨id, fun _ => false, fun p => p == "/b/x.html", fun _ => [],
   fun p => if p == "/b/x.html" then [97, 13, 10, 98] else []⟩

/-! ## The spec-side sandbox predicate (for claim C3) -/

/-- Modelled from the claim's words, for comparison with the check the code
performs: the canonical file path is equal to the canonical base path or
nested under it (extends it across a `/` boundary). -/
def nestedUnder (fileP baseP : String) : Prop :=
  fileP = baseP ∨ pyStartswith fileP (baseP ++ "/") = true

lemma nestedUnder_startswith (f b : String) (h : nestedUnder f b) :
    pyStartswith f b = true := by
  unfold pyStartswith
  rw [List.isPrefixOf_iff_prefix]
  rcases h with h | h
  · subst h; exact List.prefix_refl _
  · unfold pyStartswith at h
    rw [List.isPrefixOf_iff_prefix] at h
    refine List.IsPrefix.trans ?_ h
    rw [String.data_append]
    exact List.prefix_append _ _

/-! ## Claims -/

/-- C1, as stated, is false on the code: the counter is incremented before
the MIME lookup, so the 415 path does increment the per-path counter.  At
the concrete input `GET /x.xyz` against a base containing the regular file
`x.xyz`, the response is 415 and the counter for `x.xyz` moves from 0
to 1. -/
theorem C1_counterexample :
    ((handle_request fsPlain "/b" 0 "10.0.0.1" "GET /x.xyz HTTP/1.1" stEmpty).2.map
        Response.status = some 415)
    ∧ (handle_request fsPlain "/b" 0 "10.0.0.1" "GET /x.xyz HTTP/1.1" stEmpty).1.request_counts
        "x.xyz" = 1
    ∧ stEmpty.request_counts "x.xyz" = 0 := by
  refine ⟨by decide, by decide, rfl⟩

/-- C1 (amended): for every admitted GET request whose resolved path is an
existing regular file with an extension not in the MIME table, the handler
emits a 415 response, and the per-path counter for that path is incremented
by exactly one (the increment precedes the MIME lookup); no other path's
counter changes. -/
theorem C1_unsupported_type (fs : FS) (base : String) (now : ℚ) (ip req : String)
    (st : ServerState) (url : String) (rest : List String)
    (hadm : (is_rate_limited now (st.rate_limit_data ip)).1 = false)
    (hparse : pySplitWs ((pySplitChar '\n' req).headD "") = "GET" :: url :: rest)
    (hroot : url ≠ "/")
    (hpref : pyStartswith (fs.realpath (pyJoin base (pyLstrip '/' url)))
      (fs.realpath base) = true)
    (hdir : fs.isDir (pyJoin base (pyLstrip '/' url)) = false)
    (hfile : fs.isFile (pyJoin base (pyLstrip '/' url)) = true)
    (hmime : get_content_type (pyJoin base (pyLstrip '/' url)) = none) :
    ((handle_request fs base now ip req st).2.map Response.status = some 415)
    ∧ (handle_request fs base now ip req st).1.request_counts
        (pyRelpath (fs.realpath (pyJoin base (pyLstrip '/' url))) (fs.realpath base)) =
      st.request_counts
        (pyRelpath (fs.realpath (pyJoin base (pyLstrip '/' url))) (fs.realpath base)) + 1
    ∧ ∀ p, p ≠ pyRelpath (fs.realpath (pyJoin base (pyLstrip '/' url))) (fs.realpath base) →
        (handle_request fs base now ip req st).1.request_counts p = st.request_counts p := by
  rw [handle_request_admitted fs base now ip req st hadm,
    route_request_get fs base _ req url rest hparse hroot,
    serve_path_415 fs base _ (pyLstrip '/' url) hpref hdir hfile hmime]
  refine ⟨by simp, ?_, ?_⟩
  · simp [increment_request_count, increment_total_requests]
  · intro p hp
    simp [increment_request_count, increment_total_requests, hp]

/-- C1 (amended) at a concrete input: the hypotheses hold for
`GET /x.xyz HTTP/1.1` against `fsPlain`, and the counter for `x.xyz` rises
by one. -/
theorem C1_unsupported_type_witness :
    get_content_type (pyJoin "/b" (pyLstrip '/' "/x.xyz")) = none
    ∧ (handle_request fsPlain "/b" 0 "10.0.0.1" "GET /x.xyz HTTP/1.1" stEmpty).1.request_counts
        (pyRelpath (fsPlain.realpath (pyJoin "/b" (pyLstrip '/' "/x.xyz")))
          (fsPlain.realpath "/b")) =
      stEmpty.request_counts
        (pyRelpath (fsPlain.realpath (pyJoin "/b" (pyLstrip '/' "/x.xyz")))
          (fsPlain.realpath "/b")) + 1 :=
  ⟨by decide,
   (C1_unsupported_type fsPlain "/b" 0 "10.0.0.1" "GET /x.xyz HTTP/1.1" stEmpty "/x.xyz"
      ["HTTP/1.1"] (by decide) (by decide) (by decide) (by decide) (by decide) (by decide)
      (by decide)).2.1⟩

/-- C2: the code at the failing input.  For a non-root directory listing the
Content-Length header carries the codepoint count of the page (1357) while
the body sent is its UTF-8 encoding (1360 bytes — the 📁 glyph alone
occupies 4 bytes), so header and body disagree; the root-listing branch
(which measures the encoded bytes) and the file branch agree with their
bodies. -/
theorem C2_content_length :
    ((handle_request fsSub "/b" 0 "10.0.0.1" "GET /sub HTTP/1.1" stEmpty).2.map
        (fun r => (r.status, r.header "Content-Length", r.body.length)) =
      some (200, some "1357", 1360))
    ∧ ((handle_request fsSub "/b" 0 "10.0.0.1" "GET / HTTP/1.1" stEmpty).2.map
        (fun r => (r.status, r.header "Content-Length", r.body.length)) =
      some (200, some "1301", 1301))
    ∧ ((handle_request fsCrlf "/b" 0 "10.0.0.1" "GET /x.html HTTP/1.1" stEmpty).2.map
        (fun r => (r.status, r.header "Content-Length", r.body.length)) =
      some (200, some "3", 3)) := by
  refine ⟨by decide, by decide, by decide⟩

/-- C3, as stated, is false on the code: the enforced policy is plain
string-prefix containment of canonical forms, which admits canonical
siblings of the base.  Concretely, `/srv/www/../www2/secret` canonicalizes
to `/srv/www2/secret`, which is neither equal to nor nested under
`/srv/www`, yet the response is 404, not 403, because the string
`/srv/www2/secret` starts with `/srv/www`. -/
theorem C3_counterexample :
    ¬ nestedUnder (fsSibling.realpath (pyJoin "/srv/www" (pyLstrip '/' "/../www2/secret")))
        (fsSibling.realpath "/srv/www")
    ∧ ((handle_request fsSibling "/srv/www" 0 "10.0.0.1"
          "GET /../www2/secret HTTP/1.1" stEmpty).2.map Response.status = some 404) := by
  refine ⟨?_, by decide⟩
  intro h
  rcases h with h | h
  · exact absurd h (by decide)
  · exact absurd h (by decide)

/-- C3 (amended): for every admitted GET request whose path is not exactly
`/`, the resolver canonicalizes both sides and responds 403 exactly when the
canonical file path does not start with the canonical base path as a string
prefix; equal-or-nested paths are therefore admitted (nested implies the
prefix), and the check is applied with the same outcome with no assumption
about the path existing on disk. -/
theorem C3_resolver (fs : FS) (base : String) (now : ℚ) (ip req : String)
    (st : ServerState) (url : String) (rest : List String)
    (hadm : (is_rate_limited now (st.rate_limit_data ip)).1 = false)
    (hparse : pySplitWs ((pySplitChar '\n' req).headD "") = "GET" :: url :: rest)
    (hroot : url ≠ "/") :
    (pyStartswith (fs.realpath (pyJoin base (pyLstrip '/' url))) (fs.realpath base) = false →
      (handle_request fs base now ip req st).2.map Response.status = some 403)
    ∧ (pyStartswith (fs.realpath (pyJoin base (pyLstrip '/' url))) (fs.realpath base) = true →
      (handle_request fs base now ip req st).2.map Response.status ≠ some 403)
    ∧ (nestedUnder (fs.realpath (pyJoin base (pyLstrip '/' url))) (fs.realpath base) →
      (handle_request fs base now ip req st).2.map Response.status ≠ some 403) := by
  have hred : handle_request fs base now ip req st =
      serve_path fs base
        (increment_total_requests
          { st with rate_limit_data := fun i =>
              if i = ip then (is_rate_limited now (st.rate_limit_data ip)).2
              else st.rate_limit_data i }) (pyLstrip '/' url) := by
    rw [handle_request_admitted fs base now ip req st hadm]
    exact route_request_get fs base _ req url rest hparse hroot
  refine ⟨?_, ?_, ?_⟩
  · intro hp
    rw [hred, serve_path_403 fs base _ _ hp]
    rfl
  · intro hp
    rw [hred]
    exact serve_path_status_ne_403 fs base _ _ hp
  · intro hn
    rw [hred]
    exact serve_path_status_ne_403 fs base _ _ (nestedUnder_startswith _ _ hn)

/-- C3 (amended) at a concrete input: `GET /../../etc/passwd` canonicalizes
outside the base directory, fails the string-prefix test, and draws 403. -/
theorem C3_resolver_witness :
    pyStartswith (fsSibling.realpath (pyJoin "/srv/www" (pyLstrip '/' "/../../etc/passwd")))
      (fsSibling.realpath "/srv/www") = false
    ∧ ((handle_request fsSibling "/srv/www" 0 "10.0.0.1"
          "GET /../../etc/passwd HTTP/1.1" stEmpty).2.map Response.status = some 403) :=
  ⟨by decide,
   (C3_resolver fsSibling "/srv/www" 0 "10.0.0.1" "GET /../../etc/passwd HTTP/1.1" stEmpty
      "/../../etc/passwd" ["HTTP/1.1"] (by decide) (by decide) (by decide)).1 (by decide)⟩

/-- C4: with chronologically ordered call times, the limiter admits at most
`RATE_LIMIT` calls inside any window `[a, a + RATE_WINDOW)`; a rejected call
stores only the pruned timestamp list (recording nothing new), and the
handler then answers 429 with `Retry-After: 1` while leaving every per-path
counter and the server total unchanged. -/
theorem C4_rate_limiter (u a : ℚ) (ts : List ℚ)
    (hchain : List.Chain (· ≤ ·) u ts)
    (fs : FS) (base : String) (now : ℚ) (ip req : String) (st : ServerState)
    (hlim : (is_rate_limited now (st.rate_limit_data ip)).1 = true) :
    ((runRL [] ts).filter
        (fun s => decide (a ≤ s) && decide (s < a + RATE_WINDOW))).length ≤ RATE_LIMIT
    ∧ (is_rate_limited now (st.rate_limit_data ip)).2 =
        (st.rate_limit_data ip).filter (fun s => decide (now - s < RATE_WINDOW))
    ∧ (handle_request fs base now ip req st).2 =
        some { status := 429, reason := "Too Many Requests",
               headers := [("Content-Type", "text/html"), ("Retry-After", "1")],
               body := strBytes body429 }
    ∧ (∀ p, (handle_request fs base now ip req st).1.request_counts p = st.request_counts p)
    ∧ (handle_request fs base now ip req st).1.total_requests = st.total_requests := by
  have h5 : RATE_LIMIT ≤
      ((st.rate_limit_data ip).filter (fun s => decide (now - s < RATE_WINDOW))).length := by
    by_contra hc
    simp [is_rate_limited, hc] at hlim
  refine ⟨rate_window_bound u ts hchain a, ?_, ?_, ?_, ?_⟩
  · simp [is_rate_limited, h5]
  · rw [handle_request_limited fs base now ip req st hlim]
  · intro p
    rw [handle_request_limited fs base now ip req st hlim]
  · rw [handle_request_limited fs base now ip req st hlim]

/-- C4 at a concrete input: six calls all at time 0 are chronological; at
most five admissions land in the window starting at 0, and a sixth request
from a client with five stored stamps is rejected without touching the
total. -/
theorem C4_rate_limiter_witness :
    List.Chain (· ≤ ·) (0 : ℚ) [0, 0, 0, 0, 0, 0]
    ∧ (is_rate_limited (0 : ℚ) (stFull.rate_limit_data "10.0.0.1")).1 = true
    ∧ ((runRL [] [0, 0, 0, 0, 0, 0]).filter
        (fun s => decide ((0 : ℚ) ≤ s) && decide (s < 0 + RATE_WINDOW))).length ≤ RATE_LIMIT
    ∧ (handle_request fsPlain "/b" (0 : ℚ) "10.0.0.1" "GET /x.xyz HTTP/1.1"
        stFull).1.total_requests = stFull.total_requests :=
  ⟨by simp [List.chain_cons],
   by simp [is_rate_limited, stFull, RATE_LIMIT, RATE_WINDOW, List.filter],
   (C4_rate_limiter 0 0 [0, 0, 0, 0, 0, 0] (by simp [List.chain_cons]) fsPlain "/b" 0
      "10.0.0.1" "GET /x.xyz HTTP/1.1" stFull
      (by simp [is_rate_limited, stFull, RATE_LIMIT, RATE_WINDOW, List.filter])).1,
   (C4_rate_limiter 0 0 [0, 0, 0, 0, 0, 0] (by simp [List.chain_cons]) fsPlain "/b" 0
      "10.0.0.1" "GET /x.xyz HTTP/1.1" stFull
      (by simp [is_rate_limited, stFull, RATE_LIMIT, RATE_WINDOW,
        List.filter])).2.2.2.2⟩

/-- C5: each `increment_request_count` call is one atomic read-modify-write
under `request_counts_lock`, so any concurrent execution of a set of calls
is a serialization `ps` of the individual increments; after applying any
such serialization, the counter of `P` has grown by exactly the number of
increments naming `P` — in particular by `N` for `N` concurrent requests
for `P` — with no lost updates. -/
theorem C5_no_lost_updates (ps : List String) (P : String) (st : ServerState) (N : Nat) :
    (applyIncrements ps st).request_counts P = st.request_counts P + ps.count P
    ∧ (applyIncrements (List.replicate N P) st).request_counts P =
        st.request_counts P + N := by
  refine ⟨applyIncrements_counts ps st P, ?_⟩
  rw [applyIncrements_counts]
  simp

/-- C6: the server total is left unchanged by a rate-limited request and
incremented exactly once by every admitted request, whatever its outcome;
consequently, over any sequence of requests the total grows by exactly the
number of requests admitted past the gate. -/
theorem C6_total_counter (fs : FS) (base : String) (now : ℚ) (ip req : String)
    (st : ServerState) :
    ((is_rate_limited now (st.rate_limit_data ip)).1 = true →
      (handle_request fs base now ip req st).1.total_requests = st.total_requests)
    ∧ ((is_rate_limited now (st.rate_limit_data ip)).1 = false →
      (handle_request fs base now ip req st).1.total_requests = st.total_requests + 1)
    ∧ ∀ (reqs : List (ℚ × String × String)) (st0 : ServerState),
        (runRequests fs base reqs st0).1.total_requests =
          st0.total_requests + (runRequests fs base reqs st0).2 := by
  refine ⟨?_, ?_, runRequests_total fs base⟩
  · intro h
    rw [handle_total, if_pos h]
  · intro h
    rw [handle_total, h]
    simp

/-- C6 at a concrete input: an admitted request (empty rate state) bumps
the total by one. -/
theorem C6_total_counter_witness :
    (is_rate_limited 0 (stEmpty.rate_limit_data "10.0.0.1")).1 = false
    ∧ (handle_request fsPlain "/b" 0 "10.0.0.1" "GET /x.xyz HTTP/1.1"
        stEmpty).1.total_requests = stEmpty.total_requests + 1 :=
  ⟨by decide,
   (C6_total_counter fsPlain "/b" 0 "10.0.0.1" "GET /x.xyz HTTP/1.1" stEmpty).2.1
     (by decide)⟩

/-- C7: for every admitted request, a non-GET method draws 405; and an
in-sandbox resolved path that is neither a directory nor an existing file
draws 404 with every per-path counter left untouched. -/
theorem C7_method_and_missing (fs : FS) (base : String) (now : ℚ) (ip req : String)
    (st : ServerState)
    (hadm : (is_rate_limited now (st.rate_limit_data ip)).1 = false) :
    (∀ method url rest,
      pySplitWs ((pySplitChar '\n' req).headD "") = method :: url :: rest →
      method ≠ "GET" →
      (handle_request fs base now ip req st).2.map Response.status = some 405)
    ∧ (∀ url rest,
      pySplitWs ((pySplitChar '\n' req).headD "") = "GET" :: url :: rest →
      url ≠ "/" →
      pyStartswith (fs.realpath (pyJoin base (pyLstrip '/' url))) (fs.realpath base) = true →
      fs.isDir (pyJoin base (pyLstrip '/' url)) = false →
      fs.isFile (pyJoin base (pyLstrip '/' url)) = false →
      ((handle_request fs base now ip req st).2.map Response.status = some 404
        ∧ ∀ p, (handle_request fs base now ip req st).1.request_counts p =
            st.request_counts p)) := by
  constructor
  · intro method url rest hparse hm
    rw [handle_request_admitted fs base now ip req st hadm,
      route_request_405 fs base _ req method url rest hparse hm]
    rfl
  · intro url rest hparse hroot hpref hdir hfile
    rw [handle_request_admitted fs base now ip req st hadm,
      route_request_get fs base _ req url rest hparse hroot,
      serve_path_404 fs base _ (pyLstrip '/' url) hpref hdir hfile]
    exact ⟨rfl, fun p => rfl⟩

/-- C7 at concrete inputs: `POST` draws 405; a missing file draws 404. -/
theorem C7_method_and_missing_witness :
    ((handle_request fsPlain "/b" 0 "10.0.0.1" "POST /x.xyz HTTP/1.1" stEmpty).2.map
        Response.status = some 405)
    ∧ ((handle_request fsPlain "/b" 0 "10.0.0.1" "GET /nofile.html HTTP/1.1" stEmpty).2.map
        Response.status = some 404) :=
  ⟨(C7_method_and_missing fsPlain "/b" 0 "10.0.0.1" "POST /x.xyz HTTP/1.1" stEmpty
      (by decide)).1 "POST" "/x.xyz" ["HTTP/1.1"] (by decide) (by decide),
   ((C7_method_and_missing fsPlain "/b" 0 "10.0.0.1" "GET /nofile.html HTTP/1.1" stEmpty
      (by decide)).2 "/nofile.html" ["HTTP/1.1"] (by decide) (by decide) (by decide)
      (by decide) (by decide)).1⟩

/-- C8, as stated, is false on the code: an `.html` file is read in text
mode, so its `\r\n` is collapsed to `\n` before serving.  At the concrete
input, the file `/b/x.html` holds the bytes `a\r\nb` but the 200 body is
`a\nb`. -/
theorem C8_counterexample :
    fsCrlf.content (pyJoin "/b" (pyLstrip '/' "/x.html")) = [97, 13, 10, 98]
    ∧ ((handle_request fsCrlf "/b" 0 "10.0.0.1" "GET /x.html HTTP/1.1" stEmpty).2.map
        (fun r => (r.status, r.body)) = some (200, [97, 10, 98])) := by
  refine ⟨by decide, by decide⟩

/-- C8 (amended): `.png` and `.pdf` files are served byte-for-byte identical
to the disk content; an `.html` file is served after universal-newline
translation of its bytes, which is the identity exactly on contents free of
the byte 0x0D. -/
theorem C8_binary_serving (fs : FS) (base : String) (now : ℚ) (ip req : String)
    (st : ServerState) (url : String) (rest : List String)
    (hadm : (is_rate_limited now (st.rate_limit_data ip)).1 = false)
    (hparse : pySplitWs ((pySplitChar '\n' req).headD "") = "GET" :: url :: rest)
    (hroot : url ≠ "/")
    (hpref : pyStartswith (fs.realpath (pyJoin base (pyLstrip '/' url)))
      (fs.realpath base) = true)
    (hdir : fs.isDir (pyJoin base (pyLstrip '/' url)) = false)
    (hfile : fs.isFile (pyJoin base (pyLstrip '/' url)) = true) :
    (∀ ct, get_content_type (pyJoin base (pyLstrip '/' url)) = some ct →
      (ct = "image/png" ∨ ct = "application/pdf") →
      (handle_request fs base now ip req st).2.map (fun r => (r.status, r.body)) =
        some (200, fs.content (pyJoin base (pyLstrip '/' url))))
    ∧ (get_content_type (pyJoin base (pyLstrip '/' url)) = some "text/html" →
      (handle_request fs base now ip req st).2.map (fun r => (r.status, r.body)) =
        some (200, univNewlines (fs.content (pyJoin base (pyLstrip '/' url)))))
    ∧ (13 ∉ fs.content (pyJoin base (pyLstrip '/' url)) →
      univNewlines (fs.content (pyJoin base (pyLstrip '/' url))) =
        fs.content (pyJoin base (pyLstrip '/' url))) := by
  refine ⟨?_, ?_, univNewlines_of_no_cr _⟩
  · intro ct hct hbin
    rw [handle_request_admitted fs base now ip req st hadm,
      route_request_get fs base _ req url rest hparse hroot,
      serve_path_file fs base _ (pyLstrip '/' url) ct hpref hdir hfile hct]
    simp [hbin]
  · intro hct
    rw [handle_request_admitted fs base now ip req st hadm,
      route_request_get fs base _ req url rest hparse hroot,
      serve_path_file fs base _ (pyLstrip '/' url) "text/html" hpref hdir hfile hct]
    have hne : ¬("text/html" = "image/png" ∨ "text/html" = "application/pdf") := by decide
    simp [hne]

/-- C8 (amended) at a concrete input: the `.html` body equals the
universal-newline translation of the disk bytes. -/
theorem C8_binary_serving_witness :
    get_content_type (pyJoin "/b" (pyLstrip '/' "/x.html")) = some "text/html"
    ∧ ((handle_request fsCrlf "/b" 0 "10.0.0.1" "GET /x.html HTTP/1.1" stEmpty).2.map
        (fun r => (r.status, r.body)) =
      some (200, univNewlines (fsCrlf.content (pyJoin "/b" (pyLstrip '/' "/x.html"))))) :=
  ⟨by decide,
   (C8_binary_serving fsCrlf "/b" 0 "10.0.0.1" "GET /x.html HTTP/1.1" stEmpty "/x.html"
      ["HTTP/1.1"] (by decide) (by decide) (by decide) (by decide) (by decide)
      (by decide)).2.1 (by decide)⟩

/-- C9: an admitted request whose first line has fewer than two
whitespace-separated tokens is dropped: the handler closes the connection
without sending any response. -/
theorem C9_malformed_dropped (fs : FS) (base : String) (now : ℚ) (ip req : String)
    (st : ServerState)
    (hadm : (is_rate_limited now (st.rate_limit_data ip)).1 = false)
    (hshort : (pySplitWs ((pySplitChar '\n' req).headD "")).length < 2) :
    (handle_request fs base now ip req st).2 = none := by
  rw [handle_request_admitted fs base now ip req st hadm]
  simp only [route_request]
  rw [if_pos hshort]

/-- C9 at a concrete input: the request text `junk` has a one-token first
line and draws no response bytes. -/
theorem C9_malformed_dropped_witness :
    (pySplitWs ((pySplitChar '\n' "junk").headD "")).length < 2
    ∧ (handle_request fsPlain "/b" 0 "10.0.0.1" "junk" stEmpty).2 = none :=
  ⟨by decide,
   C9_malformed_dropped fsPlain "/b" 0 "10.0.0.1" "junk" stEmpty (by decide) (by decide)⟩

/-- C10: the MIME lookup the code performs on an extension lowercases it
first, so it is insensitive to the case of the extension: looking up any
extension gives the same result as looking up its lowercased form, and
`.HTML`/`.Png` paths get the content type of their lowercase
counterparts rather than 415. -/
theorem C10_mime_case_insensitive :
    (∀ ext : String, mimeGet (pyLower ext) = mimeGet (pyLower (pyLower ext)))
    ∧ get_content_type "a.HTML" = get_content_type "a.html"
    ∧ get_content_type "b.Png" = get_content_type "b.png"
    ∧ get_content_type "a.HTML" = some "text/html"
    ∧ get_content_type "b.Png" = some "image/png" := by
  refine ⟨?_, by decide, by decide, by decide, by decide⟩
  intro ext
  rw [pyLower_idem]
